import Mathlib

/-!
Verification of the Gnosis Safe deployment helpers in
packages/valory/skills/price_estimation_abci/helpers/gnosis_safe.py.

The module plans the deployment transaction of a new Safe multisig via the
proxy factory. Its two operations are embedded below:
  - get_deploy_safe_tx (the Planner, lines 51-137)
  - _build_tx_deploy_proxy_contract_with_nonce (the Builder, lines 140-186)

External collaborators (the gnosis EthereumClient, the web3 library, the
process-global web3.auto client, the secrets random source and the
checksum_address helper) are modelled as an explicit environment of pure
response functions, and every chain query the code issues is recorded in a
trace so that statements about "no chain I/O" are provable.
ABI-encoded payloads are modelled symbolically: an encoded byte string is
represented by the call it encodes, since the encoder lives in the web3
library, outside this repository.
-/

namespace GnosisSafe

/-- Raw byte strings: contract bytecode returned by getCode, and the empty
data argument of the setup call. A byte is a Nat below 256; emptiness is all
the code inspects. -/
abbrev Bytes := List Nat

/-- ABI-encoded call data, modelled symbolically by the call it encodes. The
module encodes exactly two calls: the Safe V1.3.0 setup initializer
(line 113) and the factory createProxyWithNonce call (line 166). -/
inductive CallData where
  | setup (owners : List String) (threshold : Int) (toAddr : String) (data : Bytes)
      (fallback_handler : String) (payment_token : String) (payment : Int)
      (payment_receiver : String) : CallData
  | createProxyWithNonce (master_copy : String) (initializer : CallData)
      (salt_nonce : Nat) : CallData
  deriving DecidableEq, Repr

/-- Interface of an Ethereum chain client (a gnosis EthereumClient or a web3
instance): pure response functions standing for the synchronous RPC queries
the module issues. callContract and estimateGas take the destination
address, the sender address and the encoded call. -/
structure ChainClient where
  getBalance : String → Nat
  getCode : String → Bytes
  getTransactionCount : String → Nat
  callContract : String → String → CallData → String
  estimateGas : String → String → CallData → Nat
  networkName : String

/-- The gnosis ProxyFactory object (line 129): an address bound to an
EthereumClient. -/
structure ProxyFactory where
  address : String
  ethereum_client : ChainClient

/-- Ambient environment of the module: the process-global auto-configured
web3 client (web3.auto, imported at line 33), the EthereumClient constructor
applied to a node URL (line 87), the randint method of
secrets.SystemRandom() (line 48), and the checksum_address helper imported
from helpers.base (a source file of this repository not under inspection
here, modelled as an abstract address normalisation). -/
structure Env where
  w3 : ChainClient
  mkEthereumClient : String → ChainClient
  randint : Nat → Nat → Nat
  checksum_address : String → String

/-- Contract of randint(a, b) from the Python random module: an integer in
the inclusive range [a, b]. secrets.SystemRandom draws it from the OS
entropy source; the distribution is outside the embedding, the range is in
it. -/
def Env.WF (env : Env) : Prop :=
  ∀ lo hi : Nat, lo ≤ hi → lo ≤ env.randint lo hi ∧ env.randint lo hi ≤ hi

/-- One chain query, as recorded in the trace of issued RPC calls. -/
inductive ChainQuery where
  | getBalance (address : String)
  | getNetwork
  | getCode (address : String)
  | callContract (dest : String) (sender : String) (data : CallData)
  | estimateGas (sender : String) (dest : String) (data : CallData)
  | getTransactionCount (address : String)
  deriving DecidableEq, Repr

/-- Line 39 of the source. -/
def SAFE_CONTRACT : String := "0xd9Db270c1B5E3Bd161E8c8503c55cEABeE709552"

/-- Line 40 of the source. -/
def DEFAULT_CALLBACK_HANDLER : String := "0xf48f2B2d2a534e402487b3ee7C18c33Aec0Fe5e4"

/-- Line 41 of the source. -/
def PROXY_FACTORY_CONTRACT : String := "0xa6B71E26C5e0845f74c812102Ca7114b6a896AB2"

/-- NULL_ADDRESS from gnosis.eth.constants. -/
def NULL_ADDRESS : String := "0x0000000000000000000000000000000000000000"

/-- Embedding of _get_nonce (lines 46-48): returns
secrets.SystemRandom().randint(0, 2 ** 256 - 1). -/
def _get_nonce (env : Env) : Nat := env.randint 0 (2 ^ 256 - 1)

/-- The salt selection of line 74: the caller-supplied salt_nonce if it is
not None, else a fresh _get_nonce draw. -/
def resolvedSalt (env : Env) (salt_nonce : Option Nat) : Nat :=
  match salt_nonce with
  | some n => n
  | none => _get_nonce env

/-- A transaction as returned by buildTransaction and then mutated by the
module: from, to, data and gas are always present; gasPrice is present only
when supplied; the nonce slot is optional in the skeleton and is overwritten
with a concrete count before return (line 185). -/
structure Tx where
  fromAddr : String
  toAddr : String
  data : CallData
  gas : Nat
  gasPrice : Option Nat
  nonce : Option Nat
  deriving DecidableEq, Repr

/-- The ValueError failures of get_deploy_safe_tx: invalidThreshold carries
the message of line 82, insufficientFunds the message of line 92, and
networkNotSupported the message of line 105. -/
inductive PlanError where
  | invalidThreshold
  | insufficientFunds
  | networkNotSupported
  deriving DecidableEq, Repr

/-- Embedding of _build_tx_deploy_proxy_contract_with_nonce (lines 140-186).
The factory contract is bound to the ProxyFactory client and address
(lines 163-165); the predicted address is the read-only simulated call of
createProxyWithNonce with only the from field set (lines 170-171);
buildTransaction (line 182) keeps a caller-supplied gas value and otherwise
estimates gas through the same client; line 184 then adds 50000 to whatever
gas value the built transaction carries, and line 185 overwrites the nonce
with the transaction count reported by the process-global web3 client.
Returns the (transaction, predicted address) pair together with the chain
queries issued, in order. -/
def _build_tx_deploy_proxy_contract_with_nonce (env : Env)
    (proxy_factory : ProxyFactory) (master_copy : String) (address : String)
    (initializer : CallData) (salt_nonce : Nat) (gas : Option Nat)
    (gas_price : Option Nat) (nonce : Option Nat) :
    (Tx × String) × List ChainQuery :=
  let create_proxy_fn :=
    CallData.createProxyWithNonce master_copy initializer salt_nonce
  let ec := proxy_factory.ethereum_client
  let contract_address :=
    ec.callContract proxy_factory.address address create_proxy_fn
  let builtGas :=
    match gas with
    | some g => g
    | none => ec.estimateGas address proxy_factory.address create_proxy_fn
  let estQueries :=
    match gas with
    | some _ => ([] : List ChainQuery)
    | none => [ChainQuery.estimateGas address proxy_factory.address create_proxy_fn]
  let tx : Tx :=
    { fromAddr := address
      toAddr := proxy_factory.address
      data := create_proxy_fn
      gas := builtGas
      gasPrice := gas_price
      nonce := nonce }
  let tx1 : Tx := { tx with gas := tx.gas + 50000 }
  let tx2 : Tx := { tx1 with nonce := some (env.w3.getTransactionCount address) }
  ((tx2, contract_address),
    ChainQuery.callContract proxy_factory.address address create_proxy_fn ::
      (estQueries ++ [ChainQuery.getTransactionCount address]))

/-- Embedding of get_deploy_safe_tx (lines 51-137). Mirrors the source in
order: salt selection (line 74), fixed zero-valued setup arguments
(lines 75-79), the threshold check raising before any client is constructed
(lines 81-82), the balance query and zero-balance failure (lines 90-92), the
informational log of the network name on the nonzero branch, which issues a
get_network query (lines 94-100), the two short-circuited getCode checks
(lines 102-105), the setup initializer encoding, built with explicit gas and
gasPrice so that no estimation query is issued (lines 111-127), and the
delegation to the Builder (lines 129-136). Returns the result together with
the trace of chain queries. -/
def get_deploy_safe_tx (env : Env) (ethereum_node_url : String)
    (sender : String) (owners : List String) (threshold : Int)
    (salt_nonce : Option Nat) :
    Except PlanError (Tx × String) × List ChainQuery :=
  let salt_nonce : Nat := resolvedSalt env salt_nonce
  let toAddr := NULL_ADDRESS
  let data : Bytes := []
  let payment_token := NULL_ADDRESS
  let payment : Int := 0
  let payment_receiver := NULL_ADDRESS
  if (owners.length : Int) < threshold then
    (Except.error PlanError.invalidThreshold, [])
  else
    let safe_contract_address := SAFE_CONTRACT
    let proxy_factory_address := PROXY_FACTORY_CONTRACT
    let fallback_handler := DEFAULT_CALLBACK_HANDLER
    let ethereum_client := env.mkEthereumClient ethereum_node_url
    let account_address := env.checksum_address sender
    let account_balance := ethereum_client.getBalance account_address
    if account_balance = 0 then
      (Except.error PlanError.insufficientFunds,
        [ChainQuery.getBalance account_address])
    else
      let preLog := [ChainQuery.getBalance account_address, ChainQuery.getNetwork]
      if ethereum_client.getCode safe_contract_address = [] then
        (Except.error PlanError.networkNotSupported,
          preLog ++ [ChainQuery.getCode safe_contract_address])
      else if ethereum_client.getCode proxy_factory_address = [] then
        (Except.error PlanError.networkNotSupported,
          preLog ++ [ChainQuery.getCode safe_contract_address,
            ChainQuery.getCode proxy_factory_address])
      else
        let safe_creation_tx_data :=
          CallData.setup owners threshold toAddr data fallback_handler
            payment_token payment payment_receiver
        let proxy_factory : ProxyFactory :=
          { address := proxy_factory_address, ethereum_client := ethereum_client }
        let built := _build_tx_deploy_proxy_contract_with_nonce env
          proxy_factory safe_contract_address account_address
          safe_creation_tx_data salt_nonce none none none
        (Except.ok built.1,
          preLog ++ [ChainQuery.getCode safe_contract_address,
            ChainQuery.getCode proxy_factory_address] ++ built.2)

/-- The setup initializer the Planner encodes: owners and threshold, with the
fixed fallback handler and every payment-related field zero-valued. -/
def safeSetupData (owners : List String) (threshold : Int) : CallData :=
  CallData.setup owners threshold NULL_ADDRESS [] DEFAULT_CALLBACK_HANDLER
    NULL_ADDRESS 0 NULL_ADDRESS

/-- The data payload of the deployment transaction the Planner returns: the
createProxyWithNonce call of the master copy, the setup initializer and the
salt. -/
def deployCallData (owners : List String) (threshold : Int) (salt : Nat) :
    CallData :=
  CallData.createProxyWithNonce SAFE_CONTRACT (safeSetupData owners threshold)
    salt

/-- A chain-client double: one wei short of nothing is never reported (the
balance is 1 ETH), bytecode is present at every address, the transaction
count is 3, every simulated call returns a fixed address and every gas
estimate is 200000. -/
def cexClient : ChainClient :=
  { getBalance := fun _ => 10 ^ 18
    getCode := fun _ => [96, 96]
    getTransactionCount := fun _ => 3
    callContract := fun _ _ _ => "0x00000000000000000000000000000000000000AA"
    estimateGas := fun _ _ _ => 200000
    networkName := "mainnet" }

/-- An environment double built from cexClient, with a random source that
always returns the lower bound and an identity checksum normalisation. -/
def cexEnv : Env :=
  { w3 := cexClient
    mkEthereumClient := fun _ => cexClient
    randint := fun lo _ => lo
    checksum_address := fun a => a }

/-- A chain-client double reporting a zero balance everywhere and no
bytecode anywhere. -/
def deadClient : ChainClient :=
  { getBalance := fun _ => 0
    getCode := fun _ => []
    getTransactionCount := fun _ => 3
    callContract := fun _ _ _ => "0x00000000000000000000000000000000000000AA"
    estimateGas := fun _ _ _ => 200000
    networkName := "mainnet" }

/-- An environment double built from deadClient. -/
def deadEnv : Env :=
  { w3 := deadClient
    mkEthereumClient := fun _ => deadClient
    randint := fun lo _ => lo
    checksum_address := fun a => a }

/-- A chain-client double with funds but no bytecode at any address. -/
def noCodeClient : ChainClient :=
  { getBalance := fun _ => 10 ^ 18
    getCode := fun _ => []
    getTransactionCount := fun _ => 3
    callContract := fun _ _ _ => "0x00000000000000000000000000000000000000AA"
    estimateGas := fun _ _ _ => 200000
    networkName := "mainnet" }

/-- An environment double built from noCodeClient. -/
def noCodeEnv : Env :=
  { w3 := noCodeClient
    mkEthereumClient := fun _ => noCodeClient
    randint := fun lo _ => lo
    checksum_address := fun a => a }

/-- A concrete setup initializer used by counterexamples. -/
def cexInitializer : CallData := safeSetupData ["0xOwner1"] 1

/-- A concrete proxy factory bound to cexClient. -/
def cexFactory : ProxyFactory :=
  { address := PROXY_FACTORY_CONTRACT, ethereum_client := cexClient }

/-- The outcome projection of a Planner result: the error it failed with, or
none on success. -/
def planOutcome (r : Except PlanError (Tx × String)) : Option PlanError :=
  match r with
  | Except.error e => some e
  | Except.ok _ => none

/-- C1, counterexample: the Builder is called with a nonce override of 7
while the global client reports transaction count 3; the returned nonce is
3, not the override, refuting pass-through of the override. -/
theorem nonce_override_ignored_cex :
    ((_build_tx_deploy_proxy_contract_with_nonce cexEnv cexFactory
        SAFE_CONTRACT "0xSender" cexInitializer 42 none none (some 7)).1.1).nonce
      ≠ some 7 := by decide

/-- C1 (amended): for every call to the Builder, the nonce of the returned
transaction equals the transaction count the process-global client reports
for the sender, whether or not a nonce override is supplied: the override
written into the parameters at line 180 is overwritten at line 185. -/
theorem builder_nonce_is_global_count (env : Env) (pf : ProxyFactory)
    (mc addr : String) (ini : CallData) (salt : Nat) (g gp n : Option Nat) :
    ((_build_tx_deploy_proxy_contract_with_nonce env pf mc addr ini salt
        g gp n).1.1).nonce
      = some (env.w3.getTransactionCount addr) := rfl

/-- C2, counterexample: the Builder is called with a gas override of 21000,
and the returned gas limit is 71000, not the override verbatim: the 50000
buffer of line 184 is added on top of the override as well. -/
theorem gas_override_buffered_cex :
    ((_build_tx_deploy_proxy_contract_with_nonce cexEnv cexFactory
        SAFE_CONTRACT "0xSender" cexInitializer 42 (some 21000) none none).1.1).gas
      ≠ 21000 := by decide

/-- C2 (amended): for every call to the Builder, the returned gas limit is
the gas override when supplied, and the client gas estimate otherwise, plus
50000 in both cases: the buffer is added unconditionally at line 184, also
on top of an explicit override. -/
theorem builder_gas_buffer (env : Env) (pf : ProxyFactory)
    (mc addr : String) (ini : CallData) (salt : Nat) (g gp n : Option Nat) :
    ((_build_tx_deploy_proxy_contract_with_nonce env pf mc addr ini salt
        g gp n).1.1).gas
      = g.getD (pf.ethereum_client.estimateGas addr pf.address
          (CallData.createProxyWithNonce mc ini salt)) + 50000 := by
  cases g <;> rfl

/-- C6: the predicted proxy address returned by the Builder is the value of
the read-only simulated createProxyWithNonce call (line 171), so two calls
with identical arguments against a client returning fixed simulation
results yield the same predicted address both times. -/
theorem predicted_address_deterministic (env : Env) (pf : ProxyFactory)
    (mc addr : String) (ini : CallData) (salt : Nat) (g gp n : Option Nat) :
    (_build_tx_deploy_proxy_contract_with_nonce env pf mc addr ini salt
        g gp n).1.2
      = (_build_tx_deploy_proxy_contract_with_nonce env pf mc addr ini salt
          g gp n).1.2
      ∧ (_build_tx_deploy_proxy_contract_with_nonce env pf mc addr ini salt
          g gp n).1.2
        = pf.ethereum_client.callContract pf.address addr
            (CallData.createProxyWithNonce mc ini salt) :=
  ⟨rfl, rfl⟩

/-- C3, counterexample: the request with owners [0xOwner1, 0xOwner1] and
threshold 2 violates the claimed invariant, since the number of distinct
owners is 1 and the threshold exceeds it, yet the Planner does not reject
it: it succeeds and issues chain queries. The line 81 check compares the
threshold against the raw length of the owners list, duplicates included. -/
theorem threshold_check_misses_duplicates_cex :
    planOutcome (get_deploy_safe_tx cexEnv "http://node" "0xSender"
        ["0xOwner1", "0xOwner1"] 2 (some 5)).1 = none
      ∧ (["0xOwner1", "0xOwner1"] : List String).dedup.length < 2
      ∧ 0 < (get_deploy_safe_tx cexEnv "http://node" "0xSender"
          ["0xOwner1", "0xOwner1"] 2 (some 5)).2.length :=
  ⟨rfl, by decide, by decide⟩

/-- C3 (amended): for every request whose threshold exceeds the raw length
of the owners list (duplicates counted), the Planner rejects with
invalidThreshold and issues no chain query at all; the distinct-owner and
threshold-at-least-one parts of the claimed invariant are not enforced by
this check. -/
theorem threshold_rejection (env : Env) (url sender : String)
    (owners : List String) (threshold : Int) (salt : Option Nat)
    (h : (owners.length : Int) < threshold) :
    get_deploy_safe_tx env url sender owners threshold salt
      = (Except.error PlanError.invalidThreshold, []) := by
  simp [get_deploy_safe_tx, h]

/-- Witness for the amended C3 at a concrete input: one owner, threshold 2. -/
theorem threshold_rejection_witness :
    get_deploy_safe_tx cexEnv "http://node" "0xSender" ["0xOwner1"] 2 (some 5)
      = (Except.error PlanError.invalidThreshold, []) :=
  threshold_rejection cexEnv "http://node" "0xSender" ["0xOwner1"] 2 (some 5)
    (by decide)

/-- C4: for every request that passes the threshold check and whose sender
balance as reported by the chain client is zero, the Planner fails with
insufficientFunds, and the only chain query issued is the balance query: no
transaction is built or returned. -/
theorem zero_balance_rejection (env : Env) (url sender : String)
    (owners : List String) (threshold : Int) (salt : Option Nat)
    (hthr : ¬ (owners.length : Int) < threshold)
    (hbal : (env.mkEthereumClient url).getBalance (env.checksum_address sender)
      = 0) :
    get_deploy_safe_tx env url sender owners threshold salt
      = (Except.error PlanError.insufficientFunds,
          [ChainQuery.getBalance (env.checksum_address sender)]) := by
  simp [get_deploy_safe_tx, hthr, hbal]

/-- Witness for C4 at a concrete input: deadEnv reports balance zero. -/
theorem zero_balance_rejection_witness :
    get_deploy_safe_tx deadEnv "http://node" "0xSender" ["0xOwner1"] 1 (some 5)
      = (Except.error PlanError.insufficientFunds,
          [ChainQuery.getBalance "0xSender"]) :=
  zero_balance_rejection deadEnv "http://node" "0xSender" ["0xOwner1"] 1
    (some 5) (by decide) rfl

/-- C5: for every request that passes the threshold and funds checks, if the
chain client reports empty bytecode at the master Safe implementation
address or at the proxy factory address, the Planner fails with
networkNotSupported. -/
theorem missing_code_rejection (env : Env) (url sender : String)
    (owners : List String) (threshold : Int) (salt : Option Nat)
    (hthr : ¬ (owners.length : Int) < threshold)
    (hbal : (env.mkEthereumClient url).getBalance (env.checksum_address sender)
      ≠ 0)
    (hcode : (env.mkEthereumClient url).getCode SAFE_CONTRACT = []
      ∨ (env.mkEthereumClient url).getCode PROXY_FACTORY_CONTRACT = []) :
    (get_deploy_safe_tx env url sender owners threshold salt).1
      = Except.error PlanError.networkNotSupported := by
  rcases hcode with h | h
  · simp [get_deploy_safe_tx, hthr, hbal, h]
  · by_cases h2 : (env.mkEthereumClient url).getCode SAFE_CONTRACT = []
    · simp [get_deploy_safe_tx, hthr, hbal, h2]
    · simp [get_deploy_safe_tx, hthr, hbal, h, h2]

/-- Witness for C5 at a concrete input: noCodeEnv has funds but reports
empty bytecode everywhere. -/
theorem missing_code_rejection_witness :
    (get_deploy_safe_tx noCodeEnv "http://node" "0xSender" ["0xOwner1"] 1
        (some 5)).1
      = Except.error PlanError.networkNotSupported :=
  missing_code_rejection noCodeEnv "http://node" "0xSender" ["0xOwner1"] 1
    (some 5) (by decide) (by decide) (Or.inl rfl)

/-- C9: the precondition checks run in a fixed order. A threshold violation
is reported whatever the chain state would say, and with a valid threshold a
zero balance is reported as insufficientFunds even when the infrastructure
bytecode is missing as well: the funds error wins over the network error. -/
theorem precondition_check_order (env : Env) (url sender : String)
    (owners : List String) (threshold : Int) (salt : Option Nat) :
    ((owners.length : Int) < threshold →
        (get_deploy_safe_tx env url sender owners threshold salt).1
          = Except.error PlanError.invalidThreshold)
      ∧ (¬ (owners.length : Int) < threshold →
          (env.mkEthereumClient url).getBalance (env.checksum_address sender)
              = 0 →
          (env.mkEthereumClient url).getCode SAFE_CONTRACT = [] →
          (env.mkEthereumClient url).getCode PROXY_FACTORY_CONTRACT = [] →
          (get_deploy_safe_tx env url sender owners threshold salt).1
            = Except.error PlanError.insufficientFunds) := by
  constructor
  · intro h
    simp [get_deploy_safe_tx, h]
  · intro hthr hbal _ _
    simp [get_deploy_safe_tx, hthr, hbal]

/-- Witness for C9 at concrete inputs: an empty owners list with threshold 1
yields the threshold error, and deadEnv, which reports zero balance and no
bytecode at any address at once, yields the funds error and not the network
error. -/
theorem precondition_check_order_witness :
    (get_deploy_safe_tx cexEnv "http://node" "0xSender" [] 1 (some 5)).1
        = Except.error PlanError.invalidThreshold
      ∧ (get_deploy_safe_tx deadEnv "http://node" "0xSender" ["0xOwner1"] 1
          (some 5)).1
        = Except.error PlanError.insufficientFunds :=
  ⟨(precondition_check_order cexEnv "http://node" "0xSender" [] 1
      (some 5)).1 (by decide),
   (precondition_check_order deadEnv "http://node" "0xSender" ["0xOwner1"] 1
      (some 5)).2 (by decide) rfl rfl rfl⟩

/-- Shape of every successful Planner run: the returned transaction is the
Builder output for the checksummed sender against the factory, with the
setup payload, the buffered gas estimate and the global-client nonce, and
the returned address is the simulated call result. -/
theorem plan_success_tx (env : Env) (url sender : String)
    (owners : List String) (threshold : Int) (salt : Option Nat)
    (tx : Tx) (a : String)
    (h : (get_deploy_safe_tx env url sender owners threshold salt).1
      = Except.ok (tx, a)) :
    tx = { fromAddr := env.checksum_address sender
           toAddr := PROXY_FACTORY_CONTRACT
           data := deployCallData owners threshold (resolvedSalt env salt)
           gas := (env.mkEthereumClient url).estimateGas
               (env.checksum_address sender) PROXY_FACTORY_CONTRACT
               (deployCallData owners threshold (resolvedSalt env salt))
             + 50000
           gasPrice := none
           nonce := some (env.w3.getTransactionCount
             (env.checksum_address sender)) }
      ∧ a = (env.mkEthereumClient url).callContract PROXY_FACTORY_CONTRACT
          (env.checksum_address sender)
          (deployCallData owners threshold (resolvedSalt env salt)) := by
  by_cases hthr : (owners.length : Int) < threshold
  · simp [get_deploy_safe_tx, hthr] at h
  · by_cases hbal : (env.mkEthereumClient url).getBalance
        (env.checksum_address sender) = 0
    · simp [get_deploy_safe_tx, hthr, hbal] at h
    · by_cases hc1 : (env.mkEthereumClient url).getCode SAFE_CONTRACT = []
      · simp [get_deploy_safe_tx, hthr, hbal, hc1] at h
      · by_cases hc2 : (env.mkEthereumClient url).getCode
            PROXY_FACTORY_CONTRACT = []
        · simp [get_deploy_safe_tx, hthr, hbal, hc1, hc2] at h
        · simp [get_deploy_safe_tx,
            _build_tx_deploy_proxy_contract_with_nonce, hthr, hbal, hc1,
            hc2] at h
          exact ⟨h.1.symm, h.2.symm⟩

/-- C7: the data payload of a successful plan is a pure function of the
owners, the threshold and the supplied salt: two Planner runs agreeing on
those, under any environments, node URLs and senders, return byte-identical
payloads, namely the createProxyWithNonce encoding of the setup initializer
with the fixed fallback handler and all payment fields zero-valued. -/
theorem plan_data_pure (env envB : Env) (url urlB sender senderB : String)
    (owners : List String) (threshold : Int) (s : Nat)
    (tx txB : Tx) (a aB : String)
    (h1 : (get_deploy_safe_tx env url sender owners threshold (some s)).1
      = Except.ok (tx, a))
    (h2 : (get_deploy_safe_tx envB urlB senderB owners threshold (some s)).1
      = Except.ok (txB, aB)) :
    tx.data = txB.data ∧ tx.data = deployCallData owners threshold s := by
  rw [(plan_success_tx env url sender owners threshold (some s) tx a h1).1,
    (plan_success_tx envB urlB senderB owners threshold (some s) txB aB h2).1]
  exact ⟨rfl, rfl⟩

/-- The transaction a successful run of the Planner against cexEnv with salt
5 returns. -/
def cexTx5 : Tx :=
  { fromAddr := "0xSender"
    toAddr := PROXY_FACTORY_CONTRACT
    data := deployCallData ["0xOwner1"] 1 5
    gas := 250000
    gasPrice := none
    nonce := some 3 }

/-- The predicted address every cexClient simulation returns. -/
def cexAddr : String := "0x00000000000000000000000000000000000000AA"

/-- Witness for C7 at concrete inputs: two cexEnv runs under different node
URLs, both with salt 5. -/
theorem plan_data_pure_witness :
    cexTx5.data = cexTx5.data
      ∧ cexTx5.data = deployCallData ["0xOwner1"] 1 5 :=
  plan_data_pure cexEnv cexEnv "http://a" "http://b" "0xSender" "0xSender"
    ["0xOwner1"] 1 5 cexTx5 cexTx5 cexAddr cexAddr rfl rfl

/-- C8: in every successful plan the salt used in the deployment data is the
resolved salt of line 74: the caller-supplied value when present, else the
_get_nonce draw, which is randint over the full inclusive range from 0 to
2 ^ 256 - 1 of the system random source. -/
theorem salt_selection (env : Env) (url sender : String)
    (owners : List String) (threshold : Int) (salt : Option Nat) (s : Nat)
    (tx : Tx) (a : String) (hwf : env.WF)
    (h : (get_deploy_safe_tx env url sender owners threshold salt).1
      = Except.ok (tx, a)) :
    tx.data = deployCallData owners threshold (resolvedSalt env salt)
      ∧ resolvedSalt env (some s) = s
      ∧ resolvedSalt env none = _get_nonce env
      ∧ _get_nonce env ≤ 2 ^ 256 - 1 := by
  refine ⟨?_, rfl, rfl, (hwf 0 (2 ^ 256 - 1) (Nat.zero_le _)).2⟩
  rw [(plan_success_tx env url sender owners threshold salt tx a h).1]

/-- The transaction a successful run of the Planner against cexEnv with no
salt supplied returns: the cexEnv random source resolves the salt to 0. -/
def cexTxRand : Tx :=
  { fromAddr := "0xSender"
    toAddr := PROXY_FACTORY_CONTRACT
    data := deployCallData ["0xOwner1"] 1 0
    gas := 250000
    gasPrice := none
    nonce := some 3 }

/-- Witness for C8 at a concrete input: a cexEnv run with no salt supplied. -/
theorem salt_selection_witness :
    cexTxRand.data = deployCallData ["0xOwner1"] 1 (resolvedSalt cexEnv none)
      ∧ resolvedSalt cexEnv (some 7) = 7
      ∧ resolvedSalt cexEnv none = _get_nonce cexEnv
      ∧ _get_nonce cexEnv ≤ 2 ^ 256 - 1 :=
  salt_selection cexEnv "http://node" "0xSender" ["0xOwner1"] 1 none 7
    cexTxRand cexAddr (fun lo _ hle => ⟨Nat.le_refl lo, hle⟩) rfl

/-- C10: the nonce of the returned transaction is filled from the
process-global web3 client, not from the client built from the node URL:
two successful Planner runs that differ only in ethereum_node_url, with the
global client responses held fixed, carry identical nonce fields, equal to
the transaction count the global client reports for the checksummed
sender. -/
theorem nonce_from_global_client (env : Env) (urlA urlB sender : String)
    (owners : List String) (threshold : Int) (salt : Option Nat)
    (txA txB : Tx) (aA aB : String)
    (h1 : (get_deploy_safe_tx env urlA sender owners threshold salt).1
      = Except.ok (txA, aA))
    (h2 : (get_deploy_safe_tx env urlB sender owners threshold salt).1
      = Except.ok (txB, aB)) :
    txA.nonce = txB.nonce
      ∧ txA.nonce = some (env.w3.getTransactionCount
          (env.checksum_address sender)) := by
  rw [(plan_success_tx env urlA sender owners threshold salt txA aA h1).1,
    (plan_success_tx env urlB sender owners threshold salt txB aB h2).1]
  exact ⟨rfl, rfl⟩

/-- Witness for C10 at concrete inputs: two cexEnv runs under different node
URLs. -/
theorem nonce_from_global_client_witness :
    cexTx5.nonce = cexTx5.nonce
      ∧ cexTx5.nonce = some (cexEnv.w3.getTransactionCount
          (cexEnv.checksum_address "0xSender")) :=
  nonce_from_global_client cexEnv "http://a" "http://b" "0xSender"
    ["0xOwner1"] 1 (some 5) cexTx5 cexTx5 cexAddr cexAddr rfl rfl

end GnosisSafe
